import Mathlib

/-!
Verification development for the PyXLL automation examples module
(examples/automation.py).

The module is a set of Excel add-in callbacks that call back into Excel
through the COM object model.  We embed it shallowly: the COM host is a
record of static data (`Host`) plus mutable worksheet state (`HostState`),
and every callback is a function in a small state-and-trace monad `ComM`
that returns an `Except` result (COM calls can raise), the updated host
state, and the trace of host operations performed.  Each primitive COM
call consults a fault oracle (`Faults`) so that exception propagation can
be stated; an operation is recorded in the trace when it succeeds.

External COM semantics used by the embedding (from the Excel object
model): `Range.Resize(nr, nc)` keeps the top-left cell of the range and
resizes it to `nr` rows by `nc` columns; `Application.Range(cell1, cell2)`
returns the smallest rectangular range containing both arguments;
assigning a scalar to `Range.Value` writes it to every cell of the range.
Named ranges used by the macros ("button_output", "checkbox_output",
"scrollbar_output") are modelled as their own value cells, separate from
the coordinate grid used by `automation_example` (no claim relates the
two).  Python's `range.Value + 1` raises a TypeError unless the value is
a number.
-/

/-- A value stored in a worksheet cell or COM property. -/
inductive XLValue where
  | num (n : Int)
  | str (s : String)
  | empty
  deriving DecidableEq, Repr

/-- Errors raised by calls into the host automation layer, or by Python
itself (NameError when win32com was never imported, TypeError from `+`). -/
inductive ComErr where
  | comError (msg : String)
  | nameError (msg : String)
  | typeError (msg : String)
  deriving DecidableEq, Repr

/-- Python `value + 1` as used in button_example: defined on numbers,
a TypeError otherwise. -/
def XLValue.addOne : XLValue → Except ComErr XLValue
  | .num n => Except.ok (.num (n + 1))
  | _ => Except.error (.typeError "unsupported operand type for +")

/-- A rectangular worksheet range, by inclusive corner coordinates
(1-based rows and columns as in Excel). -/
structure Rect where
  top : Int
  left : Int
  bottom : Int
  right : Int
  deriving DecidableEq, Repr

/-- The single-cell range at row `r`, column `c`. -/
def Rect.cell (r c : Int) : Rect := ⟨r, c, r, c⟩

/-- Excel `Range.Resize(numRows, numCols)`: keep the top-left corner,
resize to `numRows` by `numCols`. -/
def Rect.resize (a : Rect) (numRows numCols : Int) : Rect :=
  ⟨a.top, a.left, a.top + numRows - 1, a.left + numCols - 1⟩

/-- Excel `Application.Range(cell1, cell2)`: the smallest rectangular
range containing both argument ranges. -/
def Rect.hull (a b : Rect) : Rect :=
  ⟨min a.top b.top, min a.left b.left, max a.bottom b.bottom, max a.right b.right⟩

/-- Membership of the cell `(r, c)` in a rectangular range. -/
def Rect.contains (a : Rect) (r c : Int) : Bool :=
  decide (a.top ≤ r) && decide (r ≤ a.bottom) &&
  decide (a.left ≤ c) && decide (c ≤ a.right)

/-- A host object addressed by a read or write of a `.Value` property. -/
inductive Target where
  | selection
  | named (s : String)
  | checkBox (s : String)
  | scrollBar (s : String)
  | rect (r : Rect)
  deriving DecidableEq, Repr

/-- One operation performed against the host (or against the add-in
runtime, for `xlfCaller`, `callerAddress`, `asyncCall` and `xlcAlert`). -/
inductive Op where
  | getActiveObject
  | dispatchWrap
  | ensureDispatch
  | getSelection
  | getActiveSheet
  | getRange (s : String)
  | getCaller
  | getCheckBoxes (s : String)
  | getScrollBars (s : String)
  | readValue (t : Target)
  | writeValue (t : Target) (v : XLValue)
  | xlfCaller
  | callerAddress
  | asyncCall
  | resize (a : Rect) (numRows numCols : Int)
  | rangePair (a b : Rect)
  | xlcAlert (m : String)
  deriving DecidableEq, Repr

/-- Whether an operation writes host state. -/
def Op.isWrite : Op → Bool
  | .writeValue _ _ => true
  | _ => false

/-- Whether an operation reads a `.Value` property of a host object. -/
def Op.isRead : Op → Bool
  | .readValue _ => true
  | _ => false

/-- Number of host-state writes in a trace. -/
def writeCount (tr : List Op) : Nat := (tr.filter Op.isWrite).length

/-- Number of property accesses (`.Value` reads and writes) in a trace;
object-handle resolutions are not counted. -/
def valueAccessCount (tr : List Op) : Nat :=
  (tr.filter fun o => o.isWrite || o.isRead).length

/-- Mutable worksheet state owned by the host. -/
structure HostState where
  selection : XLValue
  named : String → XLValue
  checkBox : String → XLValue
  scrollBar : String → XLValue
  cells : Int → Int → XLValue

/-- Fault oracle: an injected error makes the corresponding COM call
raise instead of succeed. -/
structure Faults where
  getActiveObject : Option ComErr
  dispatch : Option ComErr
  ensureDispatch : Option ComErr
  selection : Option ComErr
  range : String → Option ComErr
  caller : Option ComErr
  activeSheet : Option ComErr
  checkBoxes : String → Option ComErr
  scrollBars : String → Option ComErr
  readValue : Option ComErr
  writeValue : Option ComErr
  xlfCaller : Option ComErr
  callerAddress : Option ComErr
  resize : Option ComErr
  rangePair : Option ComErr
  alert : Option ComErr

/-- The fault oracle under which every COM call succeeds. -/
def noFaults : Faults :=
  { getActiveObject := none, dispatch := none, ensureDispatch := none,
    selection := none, range := fun _ => none, caller := none,
    activeSheet := none, checkBoxes := fun _ => none,
    scrollBars := fun _ => none, readValue := none, writeValue := none,
    xlfCaller := none, callerAddress := none, resize := none,
    rangePair := none, alert := none }

/-- Static facts about the host process at the time of a callback:
whether win32com was importable, the name of the invoking control
(`Application.Caller`), the address of the calling cell as reported by
`xlfCaller`, the resolution of address strings to grid coordinates, and
the fault oracle. -/
structure Host where
  hasWin32com : Bool
  caller : String
  callerAddress : String
  resolveAddr : String → Int × Int
  faults : Faults

/-- A fault-free host with win32com available. -/
def mkHost (w : Bool) (c ca : String) (res : String → Int × Int) : Host :=
  { hasWin32com := w, caller := c, callerAddress := ca,
    resolveAddr := res, faults := noFaults }

/-- Replace a host's fault oracle. -/
def withFaults (h : Host) (f : Faults) : Host :=
  { h with faults := f }

/-- The callback monad: a computation over the host state returning an
`Except` result, the final state, and the trace of performed operations. -/
def ComM (α : Type) : Type :=
  HostState → Except ComErr α × HostState × List Op

/-- Sequencing in `ComM`: an error stops the computation and is returned
unchanged (there is no handler anywhere in the module). -/
def ComM.bind {α β : Type} (m : ComM α) (f : α → ComM β) : ComM β :=
  fun st =>
    match m st with
    | (Except.error e, st1, tr1) => (Except.error e, st1, tr1)
    | (Except.ok a, st1, tr1) =>
      match f a st1 with
      | (r, st2, tr2) => (r, st2, tr1 ++ tr2)

/-- A COM call that neither reads nor writes host state: consult the
fault oracle, and on success record the operation and return `a`. -/
def prim {α : Type} (fault : Option ComErr) (o : Op) (a : α) : ComM α :=
  fun st =>
    match fault with
    | some e => (Except.error e, st, [])
    | none => (Except.ok a, st, [o])

/-- A COM call reading host state. -/
def primRead {α : Type} (fault : Option ComErr) (o : Op)
    (f : HostState → α) : ComM α :=
  fun st =>
    match fault with
    | some e => (Except.error e, st, [])
    | none => (Except.ok (f st), st, [o])

/-- A COM call writing host state. -/
def primWrite (fault : Option ComErr) (o : Op)
    (f : HostState → HostState) : ComM Unit :=
  fun st =>
    match fault with
    | some e => (Except.error e, st, [])
    | none => (Except.ok (), f st, [o])

/-- Lift a pure `Except` computation (pure Python code such as `+ 1`). -/
def liftE {α : Type} (e : Except ComErr α) : ComM α :=
  fun st => (e, st, [])

/-- The call `pyxll.get_active_object()`. -/
def getActiveObjectP (h : Host) : ComM Unit :=
  prim h.faults.getActiveObject Op.getActiveObject ()

/-- The call `win32com.client.Dispatch(xl_window).Application`.  When
the module-load import of win32com failed, the name `win32com` is
undefined and this line raises a NameError. -/
def dispatchAppP (h : Host) : ComM Unit :=
  fun st =>
    if h.hasWin32com then
      match h.faults.dispatch with
      | some e => (Except.error e, st, [])
      | none => (Except.ok (), st, [Op.dispatchWrap])
    else
      (Except.error (ComErr.nameError "name win32com is not defined"), st, [])

/-- The call `win32com.client.gencache.EnsureDispatch(xl_app)`. -/
def ensureDispatchP (h : Host) : ComM Unit :=
  prim h.faults.ensureDispatch Op.ensureDispatch ()

/-- Reading the `Selection` property of the application object. -/
def getSelectionP (h : Host) : ComM Unit :=
  prim h.faults.selection Op.getSelection ()

/-- Assigning `selection.Value = v`. -/
def writeSelectionP (h : Host) (v : XLValue) : ComM Unit :=
  primWrite h.faults.writeValue (Op.writeValue Target.selection v)
    (fun st => { st with selection := v })

/-- The call `pyxll.xlcAlert(m)`. -/
def alertP (h : Host) (m : String) : ComM Unit :=
  prim h.faults.alert (Op.xlcAlert m) ()

/-- Resolving `xl.Range(s)` for a named range `s` (handle only). -/
def getRangeP (h : Host) (s : String) : ComM Unit :=
  prim (h.faults.range s) (Op.getRange s) ()

/-- Reading `.Value` of the named range `s`. -/
def readNamedP (h : Host) (s : String) : ComM XLValue :=
  primRead h.faults.readValue (Op.readValue (Target.named s))
    (fun st => st.named s)

/-- Assigning `.Value = v` on the named range `s`. -/
def writeNamedP (h : Host) (s : String) (v : XLValue) : ComM Unit :=
  primWrite h.faults.writeValue (Op.writeValue (Target.named s) v)
    (fun st => { st with named := fun x => if x = s then v else st.named x })

/-- Reading `xl.Caller` (the name of the invoking control). -/
def getCallerP (h : Host) : ComM String :=
  prim h.faults.caller Op.getCaller h.caller

/-- Reading the `ActiveSheet` property. -/
def getActiveSheetP (h : Host) : ComM Unit :=
  prim h.faults.activeSheet Op.getActiveSheet ()

/-- Resolving `sheet.CheckBoxes(s)` (handle only). -/
def getCheckBoxesP (h : Host) (s : String) : ComM Unit :=
  prim (h.faults.checkBoxes s) (Op.getCheckBoxes s) ()

/-- Reading `check_box.Value` for the check box named `s`. -/
def readCheckBoxP (h : Host) (s : String) : ComM XLValue :=
  primRead h.faults.readValue (Op.readValue (Target.checkBox s))
    (fun st => st.checkBox s)

/-- Resolving `sheet.ScrollBars(s)` (handle only). -/
def getScrollBarsP (h : Host) (s : String) : ComM Unit :=
  prim (h.faults.scrollBars s) (Op.getScrollBars s) ()

/-- Reading `scrollbar.Value` for the scroll bar named `s`. -/
def readScrollBarP (h : Host) (s : String) : ComM XLValue :=
  primRead h.faults.readValue (Op.readValue (Target.scrollBar s))
    (fun st => st.scrollBar s)

/-- The call `pyxll.xlfCaller()` (returns the caller cell object). -/
def xlfCallerP (h : Host) : ComM Unit :=
  prim h.faults.xlfCaller Op.xlfCaller ()

/-- Reading the `address` property of the caller cell. -/
def callerAddressP (h : Host) : ComM String :=
  prim h.faults.callerAddress Op.callerAddress h.callerAddress

/-- Resolving `xl.Range(addr)` for an address string: a single-cell range
at the coordinates the host assigns to the address. -/
def getRangeAddrP (h : Host) (s : String) : ComM Rect :=
  prim (h.faults.range s) (Op.getRange s)
    (Rect.cell (h.resolveAddr s).1 (h.resolveAddr s).2)

/-- The COM call `range.Resize(numRows, numCols)`. -/
def resizeP (h : Host) (a : Rect) (numRows numCols : Int) : ComM Rect :=
  prim h.faults.resize (Op.resize a numRows numCols) (a.resize numRows numCols)

/-- The COM call `xl.Range(a, b)` on two range objects. -/
def rangePairP (h : Host) (a b : Rect) : ComM Rect :=
  prim h.faults.rangePair (Op.rangePair a b) (a.hull b)

/-- Assigning a scalar to `range.Value` on a rectangular range: every
cell of the rectangle receives the value. -/
def writeRectP (h : Host) (a : Rect) (v : XLValue) : ComM Unit :=
  primWrite h.faults.writeValue (Op.writeValue (Target.rect a) v)
    (fun st =>
      { st with cells := fun r c => if a.contains r c then v else st.cells r c })

/-- The call `pyxll.async_call(update_func)`: schedules the closure on
the add-in runtime; the scheduling itself always succeeds. -/
def asyncCallP : ComM Unit :=
  fun st => (Except.ok (), st, [Op.asyncCall])

/-- `xl_app()`: `xl_window = pyxll.get_active_object()`, then
`win32com.client.Dispatch(xl_window).Application`, then
`win32com.client.gencache.EnsureDispatch(xl_app)`. -/
def xl_app (h : Host) : ComM Unit :=
  ComM.bind (getActiveObjectP h) (fun _ =>
  ComM.bind (dispatchAppP h) (fun _ =>
  ensureDispatchP h))

/-- The menu function `win32com_menu_test`, registered with
`xl_menu("win32com test", sub_menu="More Examples")`:
`selection = xl_app().Selection; selection.Value = "Hello!";
pyxll.xlcAlert(...)`. -/
def win32com_menu_test (h : Host) : ComM Unit :=
  ComM.bind (xl_app h) (fun _ =>
  ComM.bind (getSelectionP h) (fun _ =>
  ComM.bind (writeSelectionP h (XLValue.str "Hello!")) (fun _ =>
  alertP h "Some text has been written to the current cell")))

/-- The macro `button_example`:
`xl = xl_app(); range = xl.Range("button_output");
range.Value = range.Value + 1`. -/
def button_example (h : Host) : ComM Unit :=
  ComM.bind (xl_app h) (fun _ =>
  ComM.bind (getRangeP h "button_output") (fun _ =>
  ComM.bind (readNamedP h "button_output") (fun v =>
  ComM.bind (liftE v.addOne) (fun v1 =>
  writeNamedP h "button_output" v1))))

/-- The macro `checkbox_example`:
`xl = xl_app(); check_box = xl.ActiveSheet.CheckBoxes(xl.Caller);
if check_box.Value == 1: xl.Range("checkbox_output").Value = "CHECKED!"
else: xl.Range("checkbox_output").Value = "Click the check box"`. -/
def checkbox_example (h : Host) : ComM Unit :=
  ComM.bind (xl_app h) (fun _ =>
  ComM.bind (getActiveSheetP h) (fun _ =>
  ComM.bind (getCallerP h) (fun c =>
  ComM.bind (getCheckBoxesP h c) (fun _ =>
  ComM.bind (readCheckBoxP h c) (fun v =>
  if v = XLValue.num 1 then
    ComM.bind (getRangeP h "checkbox_output") (fun _ =>
    writeNamedP h "checkbox_output" (XLValue.str "CHECKED!"))
  else
    ComM.bind (getRangeP h "checkbox_output") (fun _ =>
    writeNamedP h "checkbox_output" (XLValue.str "Click the check box")))))))

/-- The macro `scrollbar_example`:
`xl = xl_app(); caller = xl.Caller;
scrollbar = xl.ActiveSheet.ScrollBars(xl.Caller);
xl.Range("scrollbar_output").Value = scrollbar.Value`.
The source reads `xl.Caller` twice (the local `caller` is unused). -/
def scrollbar_example (h : Host) : ComM Unit :=
  ComM.bind (xl_app h) (fun _ =>
  ComM.bind (getCallerP h) (fun _ =>
  ComM.bind (getActiveSheetP h) (fun _ =>
  ComM.bind (getCallerP h) (fun c =>
  ComM.bind (getScrollBarsP h c) (fun _ =>
  ComM.bind (readScrollBarP h c) (fun v =>
  ComM.bind (getRangeP h "scrollbar_output") (fun _ =>
  writeNamedP h "scrollbar_output" v)))))))

/-- The data captured by the closure `update_func` defined inside
`automation_example`: the caller address string, the two integer
arguments, and the input value.  No host handle is captured. -/
structure UpdateData where
  address : String
  rows : Int
  cols : Int
  value : XLValue
  deriving DecidableEq, Repr

/-- The closure `update_func` handed to `pyxll.async_call`:
`xl = xl_app(); range = xl.Range(address);
range = xl.Range(range.Resize(2, 1), range.Resize(rows+1, cols));
range.Value = value`.  It runs on a fresh host handle obtained when it
executes. -/
def update_func (h : Host) (d : UpdateData) : ComM Unit :=
  ComM.bind (xl_app h) (fun _ =>
  ComM.bind (getRangeAddrP h d.address) (fun r0 =>
  ComM.bind (resizeP h r0 2 1) (fun r1 =>
  ComM.bind (resizeP h r0 (d.rows + 1) d.cols) (fun r2 =>
  ComM.bind (rangePairP h r1 r2) (fun r =>
  writeRectP h r d.value)))))

/-- The worksheet function `automation_example`, registered with
`xl_func("int rows, int cols, var value", macro=True)`:
`caller = pyxll.xlfCaller(); address = caller.address;
pyxll.async_call(update_func); return address`.  The embedding returns
the address together with the `UpdateData` captured by the closure that
was handed to `async_call`. -/
def automation_example (h : Host) (rows cols : Int) (value : XLValue) :
    ComM (String × UpdateData) :=
  ComM.bind (xlfCallerP h) (fun _ =>
  ComM.bind (callerAddressP h) (fun address =>
  ComM.bind asyncCallP (fun _ =>
  fun st => (Except.ok (address, UpdateData.mk address rows cols value), st, []))))

/-- One entry of the add-in registration surface.  `trigger` is "menu"
for `xl_menu`, "macro" for `xl_macro`, "function" for `xl_func`.
`isCommand` is true for menu functions and macros (full-access
commands); `elevated` records the macro-sheet-equivalent capability flag
(the keyword argument macro=True of `xl_func`). -/
structure Registration where
  fname : String
  trigger : String
  isCommand : Bool
  elevated : Bool
  deriving DecidableEq, Repr

/-- The registrations made by the decorators in the module, in source
order. -/
def registrations : List Registration :=
  [⟨"win32com_menu_test", "menu", true, false⟩,
   ⟨"button_example", "macro", true, false⟩,
   ⟨"checkbox_example", "macro", true, false⟩,
   ⟨"scrollbar_example", "macro", true, false⟩,
   ⟨"automation_example", "function", false, true⟩]

/-- Module-level state created at import time: the log lines emitted by
the module logger, and the set of registrations made by the decorators.
No host handle is part of it. -/
structure ModuleState where
  log : List String
  registered : List Registration
  deriving DecidableEq, Repr

/-- The warnings logged when `import win32com.client` fails. -/
def importWarnings : List String :=
  ["*** win32com.client could not be imported          ***",
   "*** some of the automation examples will not work  ***",
   "*** to fix this, install the pywin32 extensions.   ***"]

/-- Importing the module: the `try: import win32com.client` block catches
ImportError and logs three warnings; the decorators run afterwards in
either case, so the registrations do not depend on win32com being
available. -/
def moduleInit (hasWin32com : Bool) : ModuleState :=
  { log := if hasWin32com then [] else importWarnings,
    registered := registrations }

/-- A concrete fault-free host used for closed evaluations: win32com is
available, the invoking control is "Check Box 1", the calling cell is
reported at address "$A$1", and every address resolves to row 1,
column 1. -/
def demoHost : Host := mkHost true "Check Box 1" "$A$1" (fun _ => (1, 1))

/-- A concrete worksheet state: empty selection and grid, every named
range holding 0, every check box holding 1, every scroll bar holding 0. -/
def demoState : HostState :=
  { selection := XLValue.empty, named := fun _ => XLValue.num 0,
    checkBox := fun _ => XLValue.num 1, scrollBar := fun _ => XLValue.num 0,
    cells := fun _ _ => XLValue.empty }

/-- The trace of a callback run on the demo worksheet state. -/
def runTrace {α : Type} (m : ComM α) : List Op := (m demoState).2.2

/-- Whether the callback registered under a given name writes host state
on a fault-free run (for `automation_example`, counting the deferred
update it schedules). -/
def mutatesHost : String → Bool
  | "win32com_menu_test" => 0 < writeCount (runTrace (win32com_menu_test demoHost))
  | "button_example" => 0 < writeCount (runTrace (button_example demoHost))
  | "checkbox_example" => 0 < writeCount (runTrace (checkbox_example demoHost))
  | "scrollbar_example" => 0 < writeCount (runTrace (scrollbar_example demoHost))
  | "automation_example" =>
      0 < writeCount
        (runTrace (automation_example demoHost 2 3 (XLValue.num 7)) ++
         runTrace (update_func demoHost (UpdateData.mk "$A$1" 2 3 (XLValue.num 7))))
  | _ => false

/-- Fault oracle raising `e` at `pyxll.get_active_object()`. -/
def gaoFault (e : ComErr) : Faults := { noFaults with getActiveObject := some e }

/-- Fault oracle raising `e` when resolving the range named `s`. -/
def rangeFault (s : String) (e : ComErr) : Faults :=
  { noFaults with range := fun x => if x = s then some e else none }

/-- Fault oracle raising `e` at any `.Value` write. -/
def writeFault (e : ComErr) : Faults := { noFaults with writeValue := some e }

/-- Fault oracle raising `e` at any `.Value` read. -/
def readFault (e : ComErr) : Faults := { noFaults with readValue := some e }

/-- Fault oracle raising `e` when reading `xl.Caller`. -/
def callerFault (e : ComErr) : Faults := { noFaults with caller := some e }

/-- Fault oracle raising `e` at `pyxll.xlfCaller()`. -/
def xlfCallerFault (e : ComErr) : Faults := { noFaults with xlfCaller := some e }

/-- C1: the synchronous body of `automation_example` never writes host
state (under any host, faulty or not) and leaves the worksheet state
unchanged; on a fault-free host its trace is exactly the caller lookup,
the address read, and the asynchronous scheduling; the single range
write happens inside `update_func`, the closure handed to
`pyxll.async_call`. -/
theorem automation_write_only_in_update :
    (∀ (h : Host) (rows cols : Int) (value : XLValue) (st : HostState),
       writeCount ((automation_example h rows cols value) st).2.2 = 0 ∧
       ((automation_example h rows cols value) st).2.1 = st) ∧
    (∀ (c ca : String) (res : String → Int × Int) (rows cols : Int)
       (value : XLValue) (st : HostState),
       ((automation_example (mkHost true c ca res) rows cols value) st).2.2 =
         [Op.xlfCaller, Op.callerAddress, Op.asyncCall]) ∧
    (∀ (c ca : String) (res : String → Int × Int) (d : UpdateData)
       (st : HostState),
       writeCount ((update_func (mkHost true c ca res) d) st).2.2 = 1) := by
  refine ⟨?_, ?_, ?_⟩
  · intro h rows cols value st
    unfold automation_example xlfCallerP callerAddressP asyncCallP prim ComM.bind
    cases h.faults.xlfCaller <;> cases h.faults.callerAddress <;>
      simp [writeCount, Op.isWrite]
  · intro c ca res rows cols value st
    rfl
  · intro c ca res d st
    rfl

/-- C2 counterexample: `button_example` performs two `.Value` property
accesses beyond handle resolution (it reads the value of the named range
"button_output" and then writes it back incremented), refuting the
claim that no function performs more than one property access beyond
handle resolution. -/
theorem button_two_value_accesses :
    valueAccessCount ((button_example demoHost) demoState).2.2 = 2 ∧
    ¬ valueAccessCount ((button_example demoHost) demoState).2.2 ≤ 1 := by
  constructor <;> decide

/-- C2 amended: every function in the module performs, beyond handle
resolution, at most one property write (possibly preceded by property
reads), and `automation_example` performs its single write only in the
deferred `update_func`. -/
theorem callbacks_at_most_one_write :
    ∀ (c ca : String) (res : String → Int × Int) (st : HostState),
      writeCount ((win32com_menu_test (mkHost true c ca res)) st).2.2 ≤ 1 ∧
      writeCount ((button_example (mkHost true c ca res)) st).2.2 ≤ 1 ∧
      writeCount ((checkbox_example (mkHost true c ca res)) st).2.2 ≤ 1 ∧
      writeCount ((scrollbar_example (mkHost true c ca res)) st).2.2 ≤ 1 ∧
      (∀ (rows cols : Int) (value : XLValue),
        writeCount ((automation_example (mkHost true c ca res) rows cols value) st).2.2 = 0) ∧
      (∀ d : UpdateData,
        writeCount ((update_func (mkHost true c ca res) d) st).2.2 = 1) := by
  intro c ca res st
  refine ⟨Nat.le_of_eq rfl, ?_, ?_, Nat.le_of_eq rfl, fun rows cols value => rfl,
    fun d => rfl⟩
  · cases hb : st.named "button_output" <;>
      simp [button_example, xl_app, getActiveObjectP, dispatchAppP,
        ensureDispatchP, getRangeP, readNamedP, writeNamedP, liftE,
        XLValue.addOne, prim, primRead, primWrite, ComM.bind, mkHost, noFaults,
        hb, writeCount, Op.isWrite]
  · by_cases hv : st.checkBox c = XLValue.num 1 <;>
      simp [checkbox_example, xl_app, getActiveObjectP, dispatchAppP,
        ensureDispatchP, getActiveSheetP, getCallerP, getCheckBoxesP,
        readCheckBoxP, getRangeP, writeNamedP, prim, primRead, primWrite,
        ComM.bind, mkHost, noFaults, hv, writeCount, Op.isWrite]

/-- C3: no callback contains an exception handler: an error raised by
any call into the host automation layer is returned unchanged as the
callback's outcome.  Shown for the application-handle lookup in every
callback, and for range resolution, value reads, value writes, the
control-name lookup, and the caller-cell lookup at representative
sites. -/
theorem com_errors_propagate_uncaught :
    ∀ (e : ComErr) (st : HostState) (d : UpdateData),
      ((win32com_menu_test (withFaults demoHost (gaoFault e))) st).1 = Except.error e ∧
      ((button_example (withFaults demoHost (gaoFault e))) st).1 = Except.error e ∧
      ((checkbox_example (withFaults demoHost (gaoFault e))) st).1 = Except.error e ∧
      ((scrollbar_example (withFaults demoHost (gaoFault e))) st).1 = Except.error e ∧
      ((update_func (withFaults demoHost (gaoFault e)) d) st).1 = Except.error e ∧
      ((button_example (withFaults demoHost (rangeFault "button_output" e))) st).1 = Except.error e ∧
      ((win32com_menu_test (withFaults demoHost (writeFault e))) st).1 = Except.error e ∧
      ((checkbox_example (withFaults demoHost (readFault e))) st).1 = Except.error e ∧
      ((scrollbar_example (withFaults demoHost (callerFault e))) st).1 = Except.error e ∧
      ((automation_example (withFaults demoHost (xlfCallerFault e)) 2 3 (XLValue.num 7)) st).1 = Except.error e := by
  intro e st d
  refine ⟨rfl, rfl, rfl, rfl, rfl, rfl, rfl, rfl, rfl, rfl⟩

/-- C4: capability flags cover every writer: on the registration
surface, each registered callback that mutates host state is either a
full-access command (the menu function and the three macros, which all
write) or the single worksheet function `automation_example`, which is
registered with the macro-sheet-equivalent flag (macro=True); the only
worksheet function registered is `automation_example`, so no plain
read-only worksheet function mutates host state. -/
theorem capability_flags_cover_writers :
    (Registration.mk "automation_example" "function" false true ∈ registrations) ∧
    mutatesHost "automation_example" = true ∧
    (registrations.all fun r => !(mutatesHost r.fname) || r.isCommand || r.elevated) = true ∧
    (registrations.all fun r => !r.isCommand || mutatesHost r.fname) = true ∧
    (registrations.filter fun r => !r.isCommand) =
      [Registration.mk "automation_example" "function" false true] := by
  refine ⟨by decide, by decide, by decide, by decide, by decide⟩

/-- C5: every callback that touches the host resolves its application
handle through `xl_app`, whose operations are exactly the
`pyxll.get_active_object` lookup of the running Excel instance, the
Dispatch wrap of its Application object, and the gencache
EnsureDispatch call; each callback's trace starts with these three
operations. -/
theorem handle_resolution_uses_active_object :
    ∀ (c ca : String) (res : String → Int × Int) (st : HostState),
      ((xl_app (mkHost true c ca res)) st).2.2 =
        [Op.getActiveObject, Op.dispatchWrap, Op.ensureDispatch] ∧
      ((win32com_menu_test (mkHost true c ca res)) st).2.2.take 3 =
        [Op.getActiveObject, Op.dispatchWrap, Op.ensureDispatch] ∧
      ((button_example (mkHost true c ca res)) st).2.2.take 3 =
        [Op.getActiveObject, Op.dispatchWrap, Op.ensureDispatch] ∧
      ((checkbox_example (mkHost true c ca res)) st).2.2.take 3 =
        [Op.getActiveObject, Op.dispatchWrap, Op.ensureDispatch] ∧
      ((scrollbar_example (mkHost true c ca res)) st).2.2.take 3 =
        [Op.getActiveObject, Op.dispatchWrap, Op.ensureDispatch] ∧
      (∀ d : UpdateData,
        ((update_func (mkHost true c ca res) d) st).2.2.take 3 =
          [Op.getActiveObject, Op.dispatchWrap, Op.ensureDispatch]) := by
  intro c ca res st
  refine ⟨rfl, rfl, rfl, ?_, rfl, fun d => rfl⟩
  by_cases hv : st.checkBox c = XLValue.num 1 <;>
    simp [checkbox_example, xl_app, getActiveObjectP, dispatchAppP,
      ensureDispatchP, getActiveSheetP, getCallerP, getCheckBoxesP,
      readCheckBoxP, getRangeP, writeNamedP, prim, primRead, primWrite,
      ComM.bind, mkHost, noFaults, hv]

/-- C6: the closure deferred by `automation_example` captures only plain
data: the result handed to `async_call` is the `UpdateData` record of
the caller address string, the two integers and the input value; when
the deferred `update_func` later runs it acquires a fresh host handle
(its first operation is `pyxll.get_active_object`); and the module-level
state created at import time holds only log strings and registrations,
independent of any host handle. -/
theorem deferred_closure_plain_data :
    (∀ (c ca : String) (res : String → Int × Int) (rows cols : Int)
       (value : XLValue) (st : HostState),
       ((automation_example (mkHost true c ca res) rows cols value) st).1 =
         Except.ok (ca, UpdateData.mk ca rows cols value)) ∧
    (∀ (c ca : String) (res : String → Int × Int) (d : UpdateData)
       (st : HostState),
       ((update_func (mkHost true c ca res) d) st).2.2.take 1 =
         [Op.getActiveObject]) ∧
    (∀ b : Bool, moduleInit b =
      ModuleState.mk (if b then [] else importWarnings) registrations) := by
  refine ⟨fun c ca res rows cols value st => rfl, fun c ca res d st => rfl,
    fun b => rfl⟩

/-- C7: when win32com.client cannot be imported, importing the module
still succeeds: the ImportError is caught, the three warnings are
logged, and the registrations are the same as with win32com available;
the failure surfaces only later, uncaught, as a NameError when a
callback first calls `xl_app` (after the `pyxll.get_active_object`
step). -/
theorem import_fallback_lazy_failure :
    (moduleInit true).log = [] ∧
    (moduleInit false).log = importWarnings ∧
    (moduleInit false).registered = (moduleInit true).registered ∧
    (∀ (c ca : String) (res : String → Int × Int) (st : HostState),
       (xl_app (mkHost false c ca res)) st =
         (Except.error (ComErr.nameError "name win32com is not defined"), st,
          [Op.getActiveObject]) ∧
       ((button_example (mkHost false c ca res)) st).1 =
         Except.error (ComErr.nameError "name win32com is not defined")) := by
  refine ⟨rfl, rfl, rfl, fun c ca res st => ⟨rfl, rfl⟩⟩

/-- C8: the range written by `update_func` is
`Range(caller.Resize(2, 1), caller.Resize(rows+1, cols))`, whose
top-left corner is the calling cell itself for every `rows` and `cols`;
concretely, with the calling cell at row 1, column 1 and rows = cols = 1,
the deferred update writes the value into the calling cell as well as
the cell below it, contradicting the docstring "copies value to a range
of rows x cols below the calling cell". -/
theorem update_rect_includes_calling_cell :
    (∀ r c rows cols : Int,
       (Rect.hull (Rect.resize (Rect.cell r c) 2 1)
          (Rect.resize (Rect.cell r c) (rows + 1) cols)).top = r ∧
       (Rect.hull (Rect.resize (Rect.cell r c) 2 1)
          (Rect.resize (Rect.cell r c) (rows + 1) cols)).left = c) ∧
    ((update_func demoHost (UpdateData.mk "$A$1" 1 1 (XLValue.num 7))) demoState).1 =
      Except.ok () ∧
    ((update_func demoHost (UpdateData.mk "$A$1" 1 1 (XLValue.num 7))) demoState).2.1.cells 1 1 =
      XLValue.num 7 ∧
    ((update_func demoHost (UpdateData.mk "$A$1" 1 1 (XLValue.num 7))) demoState).2.1.cells 2 1 =
      XLValue.num 7 ∧
    demoState.cells 1 1 = XLValue.empty := by
  refine ⟨?_, rfl, by decide, by decide, rfl⟩
  intro r c rows cols
  constructor <;> simp [Rect.hull, Rect.resize, Rect.cell]

/-- C9: on a fault-free host, when the named range "button_output" holds
the number n, `button_example` succeeds, afterwards the named range
holds n + 1, and nothing else in the host state is written (all other
named ranges, the selection, the controls and the grid are unchanged);
the trace contains exactly one write. -/
theorem button_increments_output :
    ∀ (c ca : String) (res : String → Int × Int) (st : HostState) (n : Int),
      st.named "button_output" = XLValue.num n →
      ((button_example (mkHost true c ca res)) st).1 = Except.ok () ∧
      ((button_example (mkHost true c ca res)) st).2.1.named "button_output" =
        XLValue.num (n + 1) ∧
      (∀ s : String,
        ((button_example (mkHost true c ca res)) st).2.1.named s =
          if s = "button_output" then XLValue.num (n + 1) else st.named s) ∧
      ((button_example (mkHost true c ca res)) st).2.1.selection = st.selection ∧
      ((button_example (mkHost true c ca res)) st).2.1.checkBox = st.checkBox ∧
      ((button_example (mkHost true c ca res)) st).2.1.scrollBar = st.scrollBar ∧
      ((button_example (mkHost true c ca res)) st).2.1.cells = st.cells ∧
      writeCount ((button_example (mkHost true c ca res)) st).2.2 = 1 := by
  intro c ca res st n hn
  simp [button_example, xl_app, getActiveObjectP, dispatchAppP, ensureDispatchP,
    getRangeP, readNamedP, writeNamedP, liftE, XLValue.addOne, prim, primRead,
    primWrite, ComM.bind, mkHost, noFaults, hn, writeCount, Op.isWrite]

/-- C9 witness: on the demo worksheet, where every named range holds 0,
running `button_example` leaves 1 in "button_output". -/
theorem button_increments_output_witness :
    ((button_example (mkHost true "Check Box 1" "$A$1" (fun _ => (1, 1))))
        demoState).2.1.named "button_output" = XLValue.num 1 :=
  (button_increments_output "Check Box 1" "$A$1" (fun _ => (1, 1)) demoState 0
    rfl).2.1

/-- C10: on a fault-free host, `checkbox_example` performs exactly one
write, to the named range "checkbox_output": the value written is
"CHECKED!" precisely when the invoking check box's Value equals 1 and
"Click the check box" in every other case, and no other host state is
changed. -/
theorem checkbox_single_conditional_write :
    ∀ (c ca : String) (res : String → Int × Int) (st : HostState),
      writeCount ((checkbox_example (mkHost true c ca res)) st).2.2 = 1 ∧
      ((checkbox_example (mkHost true c ca res)) st).1 = Except.ok () ∧
      ((checkbox_example (mkHost true c ca res)) st).2.2.filter Op.isWrite =
        [Op.writeValue (Target.named "checkbox_output")
          (if st.checkBox c = XLValue.num 1 then XLValue.str "CHECKED!"
           else XLValue.str "Click the check box")] ∧
      (∀ s : String,
        ((checkbox_example (mkHost true c ca res)) st).2.1.named s =
          if s = "checkbox_output" then
            (if st.checkBox c = XLValue.num 1 then XLValue.str "CHECKED!"
             else XLValue.str "Click the check box")
          else st.named s) ∧
      (((checkbox_example (mkHost true c ca res)) st).2.1.named "checkbox_output" =
          XLValue.str "CHECKED!" ↔ st.checkBox c = XLValue.num 1) ∧
      ((checkbox_example (mkHost true c ca res)) st).2.1.selection = st.selection ∧
      ((checkbox_example (mkHost true c ca res)) st).2.1.checkBox = st.checkBox ∧
      ((checkbox_example (mkHost true c ca res)) st).2.1.scrollBar = st.scrollBar ∧
      ((checkbox_example (mkHost true c ca res)) st).2.1.cells = st.cells := by
  intro c ca res st
  by_cases hv : st.checkBox c = XLValue.num 1 <;>
    simp [checkbox_example, xl_app, getActiveObjectP, dispatchAppP,
      ensureDispatchP, getActiveSheetP, getCallerP, getCheckBoxesP,
      readCheckBoxP, getRangeP, writeNamedP, prim, primRead, primWrite,
      ComM.bind, mkHost, noFaults, hv, writeCount, Op.isWrite]
